import Mathlib

/-!
# Verification of FlappyMax (`src/FlappyMax.py`)

A shallow embedding of the FlappyMax game: the `Bird` body, the `Obstacle`
pair of rectangles, and one iteration of the main loop (`tick`).  pygame
`Rect` coordinates are machine integers, so the assignment `rect.y += velocity`
truncates the float toward zero; we model coordinates as `ℤ`, the velocity as
an exact rational, and the truncation explicitly (`ratTrunc`).
-/

namespace FlappyMax

/-- `screen_width = 1000` (module constant). -/
def screen_width : ℤ := 1000

/-- `screen_height = screen_width` (module constant). -/
def screen_height : ℤ := screen_width

/-- `hspeed = 3`, horizontal scroll speed of the obstacles. -/
def hspeed : ℤ := 3

/-- `obstacle_interval = 1800` ms, spawn-timer period. -/
def obstacle_interval : ℕ := 1800

/-- `gap_size = 400`, vertical gap between an obstacle's rectangles. -/
def gap_size : ℤ := 400

/-- A pygame `Rect`: integer position and size. -/
structure Rect where
  x : ℤ
  y : ℤ
  w : ℤ
  h : ℤ
deriving DecidableEq

/-- `rect.left`. -/
def Rect.left (r : Rect) : ℤ := r.x

/-- `rect.right`. -/
def Rect.right (r : Rect) : ℤ := r.x + r.w

/-- `rect.top`. -/
def Rect.top (r : Rect) : ℤ := r.y

/-- `rect.bottom`. -/
def Rect.bottom (r : Rect) : ℤ := r.y + r.h

/-- `a.colliderect(b)`: strict axis-aligned overlap, as pygame computes it. -/
def Rect.colliderect (a b : Rect) : Bool :=
  a.x + a.w > b.x && a.y + a.h > b.y && a.x < b.x + b.w && a.y < b.y + b.h

/-- C-style conversion of a float/rational to an int: truncation toward zero.
This is what assigning a float to a pygame `Rect` coordinate does. -/
def ratTrunc (q : ℚ) : ℤ := if 0 ≤ q then ⌊q⌋ else ⌈q⌉

/-- The player body (`class Bird`): a 100×100 rect at `(x, y)` plus the
float `velocity`. -/
structure Bird where
  x : ℤ
  y : ℤ
  velocity : ℚ
deriving DecidableEq

/-- `Bird.__init__(self, x, y)`: the `x`, `y` arguments are unused; the rect is
centered at `(screen_width // 2, screen_height // 2)` and the velocity is -5. -/
def Bird.make (a b : ℤ) : Bird :=
  { x := screen_width / 2 - 50, y := screen_height / 2 - 50, velocity := -5 }

/-- `self.rect` of a bird: a 100×100 rectangle at `(x, y)`. -/
def Bird.rect (b : Bird) : Rect := ⟨b.x, b.y, 100, 100⟩

/-- `Bird.move_upwards`: set the velocity to -5. -/
def Bird.move_upwards (b : Bird) : Bird := { b with velocity := -5 }

/-- `Bird.update`: add gravity 0.2 to the velocity, add the velocity to `rect.y`
(truncating), then clamp: if `rect.top <= -100` set `top = -100`; elif
`rect.bottom >= screen_height` set `bottom = screen_height` and
`velocity = -velocity * 0.75`. -/
def Bird.update (b : Bird) : Bird :=
  let v : ℚ := b.velocity + 1/5
  let y : ℤ := ratTrunc ((b.y : ℚ) + v)
  if y ≤ -100 then { b with y := -100, velocity := v }
  else if y + 100 ≥ screen_height then
    { b with y := screen_height - 100, velocity := -v * (3/4) }
  else { b with y := y, velocity := v }

/-- `n` successive calls of `Bird.update`. -/
def Bird.updateN : ℕ → Bird → Bird
  | 0, b => b
  | n + 1, b => Bird.update (Bird.updateN n b)

/-- An obstacle (`class Obstacle`): gap size, the two heights, the `scored`
flag, and the two rectangles. -/
structure Obstacle where
  gap_sz : ℤ
  top_height : ℤ
  bottom_height : ℤ
  scored : Bool
  top_rect : Rect
  bottom_rect : Rect
deriving DecidableEq

/-- `Obstacle.__init__(self, x, gap_size, height_range, width)` with the random
`top_height` draw made an explicit argument `h`:
`bottom_height = screen_height - top_height - gap_size`, the top rectangle has
top-left `(x, 0)`, the bottom one top-left `(x, screen_height - bottom_height)`. -/
def Obstacle.make (x g h w : ℤ) : Obstacle :=
  { gap_sz := g
    top_height := h
    bottom_height := screen_height - h - g
    scored := false
    top_rect := ⟨x, 0, w, h⟩
    bottom_rect := ⟨x, screen_height - (screen_height - h - g), w, screen_height - h - g⟩ }

/-- `Obstacle.update`: move both rectangles left by `hspeed`. -/
def Obstacle.update (o : Obstacle) : Obstacle :=
  { o with top_rect := { o.top_rect with x := o.top_rect.x - hspeed }
           bottom_rect := { o.bottom_rect with x := o.bottom_rect.x - hspeed } }

/-- The removal condition checked after each move (`self.kill()` inside
`Obstacle.update`, and again at line 137 of the loop): top rect fully off
screen on the left. -/
def Obstacle.offscreen (o : Obstacle) : Bool := o.top_rect.right < 0

/-- `n` successive calls of `Obstacle.update`. -/
def Obstacle.updateN : ℕ → Obstacle → Obstacle
  | 0, o => o
  | n + 1, o => Obstacle.update (Obstacle.updateN n o)

/-! ## Free flight trajectory

Starting from velocity -5, the velocity after `k` updates is `(k - 25)/5`
(`vq`), and since the bird's `y` is an integer, each unclamped update at a
nonnegative intermediate value adds `⌊velocity⌋` to `y`; the accumulated
integer displacement is `dlt`. -/

/-- The bird's velocity after `k` updates from the initial -5. -/
def vq (k : ℕ) : ℚ := ((k : ℚ) - 25) / 5

/-- The integer the `k+1`-st update adds to `y` in unclamped nonnegative
flight: `⌊vq k + 1/5⌋ = (k - 24) / 5` (floor division). -/
def dstep (k : ℕ) : ℤ := ((k : ℤ) - 24) / 5

/-- Accumulated integer displacement of the bird after `k` updates. -/
def dlt : ℕ → ℤ
  | 0 => 0
  | k + 1 => dlt k + dstep k

/-! ## The per-obstacle scoring step (lines 128-131 of the loop)

Each tick the loop calls `obstacle.update()` and then, if the updated
obstacle's top-rect right edge is strictly left of the bird's left edge and
the obstacle is not yet scored, increments the score and sets the flag. -/

/-- One tick of obstacle movement plus the scoring check, for a single
obstacle; `R` is the bird's (horizontally immobile) rectangle. -/
def scoreStep (R : Rect) (o : Obstacle) (sc : ℕ) : Obstacle × ℕ :=
  let o2 := Obstacle.update o
  if o2.top_rect.right < R.left ∧ o2.scored = false then
    ({ o2 with scored := true }, sc + 1)
  else (o2, sc)

/-- `k` ticks of the per-obstacle movement-plus-scoring step. -/
def scoreStepN (R : Rect) : ℕ → Obstacle × ℕ → Obstacle × ℕ
  | 0, p => p
  | k + 1, p => scoreStep R (scoreStepN R k p).1 (scoreStepN R k p).2

/-- The scoring condition at tick `k`: after `k` moves, the obstacle's
top-rect right edge is strictly left of the bird rect's left edge. -/
def passedAt (R : Rect) (o : Obstacle) (k : ℕ) : Prop :=
  (Obstacle.updateN k o).top_rect.right < R.left

instance (R : Rect) (o : Obstacle) (k : ℕ) : Decidable (passedAt R o k) :=
  inferInstanceAs (Decidable (_ < _))

/-! ## One iteration of the main loop -/

/-- The input events one loop iteration can poll: `pygame.QUIT`, the space
key, and the obstacle spawn timer (the random `top_height` draw of the
spawned obstacle is carried by the event). -/
inductive Event where
  | quit
  | keySpace
  | timerFire (h : ℤ)
deriving DecidableEq

/-- The loop's mutable state: the `running` flag, the bird, the obstacle
group (in insertion order), the score, and the period the spawn timer is
currently set to. -/
structure GameState where
  running : Bool
  bird : Bird
  obstacles : List Obstacle
  score : ℕ
  spawn_timer : ℕ
deriving DecidableEq

/-- Handling of one polled event (lines 117-124). -/
def handleEvent (s : GameState) (e : Event) : GameState :=
  match e with
  | .quit => { s with running := false }
  | .keySpace => { s with bird := s.bird.move_upwards }
  | .timerFire h =>
    { s with obstacles := s.obstacles ++ [Obstacle.make screen_width gap_size h 100] }

/-- The event-polling phase of one iteration. -/
def processEvents (s : GameState) (evs : List Event) : GameState :=
  evs.foldl handleEvent s

/-- Result of the per-obstacle phase: surviving obstacles, the score, and
whether a collision was detected. -/
structure PassResult where
  obstacles : List Obstacle
  score : ℕ
  collision : Bool
deriving DecidableEq

/-- The per-obstacle phase (lines 126-138): for each obstacle in order,
move it, run the scoring check, test collision against the bird's current
rectangle (breaking out of the loop on a hit), and drop it when fully off
screen. -/
def obstaclePass (R : Rect) : List Obstacle → ℕ → PassResult
  | [], sc => ⟨[], sc, false⟩
  | o :: rest, sc =>
    let p := scoreStep R o sc
    if R.colliderect p.1.top_rect || R.colliderect p.1.bottom_rect then
      ⟨p.1 :: rest, p.2, true⟩
    else
      let r := obstaclePass R rest p.2
      { r with obstacles :=
          if p.1.top_rect.right < 0 || p.1.bottom_rect.right < 0 then r.obstacles
          else p.1 :: r.obstacles }

/-- One iteration of `while running` (lines 115-166), faithful to the
source order: poll events; move/score/collision-test the obstacles against
the bird's current position; on collision reset (fresh bird, obstacle group
emptied, score zeroed, spawn timer restarted); then the render phase, whose
`bird_group.update()` (line 157) advances the bird's physics. -/
def tick (s : GameState) (evs : List Event) : GameState :=
  let s1 := processEvents s evs
  let p := obstaclePass s1.bird.rect s1.obstacles s1.score
  let s2 :=
    if p.collision then
      { s1 with bird := Bird.make (screen_width / 2) (screen_height / 2),
                obstacles := [], score := 0, spawn_timer := obstacle_interval }
    else
      { s1 with obstacles := p.obstacles, score := p.score }
  { s2 with bird := Bird.update s2.bird }

/-- Whether the iteration's collision test fires. -/
def tickCollides (s : GameState) (evs : List Event) : Bool :=
  (obstaclePass (processEvents s evs).bird.rect (processEvents s evs).obstacles
    (processEvents s evs).score).collision

/-- Modelled from the spec's claimed per-tick order (for comparison with
`tick`): poll input, advance all obstacles AND the player's physics, then
test collisions and scoring with the already-advanced player, then reset on
collision, then render. -/
def tickSpecOrdered (s : GameState) (evs : List Event) : GameState :=
  let s1 := processEvents s evs
  let b1 := Bird.update s1.bird
  let p := obstaclePass b1.rect s1.obstacles s1.score
  if p.collision then
    { s1 with bird := Bird.make (screen_width / 2) (screen_height / 2),
              obstacles := [], score := 0, spawn_timer := obstacle_interval }
  else
    { s1 with bird := b1, obstacles := p.obstacles, score := p.score }

/-- The bird operations a tick sequence can apply between updates. -/
inductive BirdOp where
  | flap
  | advance

/-- Apply one bird operation. -/
def applyOp (b : Bird) : BirdOp → Bird
  | .flap => b.move_upwards
  | .advance => b.update

/-- Run a sequence of bird operations from a starting bird. -/
def birdRun (ops : List BirdOp) (b : Bird) : Bird :=
  ops.foldl applyOp b

/-! ## Helper lemmas -/

lemma ratTrunc_intCast (n : ℤ) : ratTrunc (n : ℚ) = n := by
  unfold ratTrunc; split_ifs <;> simp

lemma ratTrunc_nonneg_eq_floor (q : ℚ) (h : 0 ≤ q) : ratTrunc q = ⌊q⌋ := by
  unfold ratTrunc; rw [if_pos h]

lemma Obstacle.updateN_top_x (o : Obstacle) (k : ℕ) :
    (Obstacle.updateN k o).top_rect.x = o.top_rect.x - 3 * k := by
  induction k with
  | zero => simp [Obstacle.updateN]
  | succ n ih =>
    simp only [Obstacle.updateN, Obstacle.update, hspeed, ih]
    push_cast; ring

lemma Obstacle.updateN_bottom_x (o : Obstacle) (k : ℕ) :
    (Obstacle.updateN k o).bottom_rect.x = o.bottom_rect.x - 3 * k := by
  induction k with
  | zero => simp [Obstacle.updateN]
  | succ n ih =>
    simp only [Obstacle.updateN, Obstacle.update, hspeed, ih]
    push_cast; ring

lemma Obstacle.updateN_top_y (o : Obstacle) (k : ℕ) :
    (Obstacle.updateN k o).top_rect.y = o.top_rect.y := by
  induction k with
  | zero => rfl
  | succ n ih => simp only [Obstacle.updateN, Obstacle.update, ih]

lemma Obstacle.updateN_top_w (o : Obstacle) (k : ℕ) :
    (Obstacle.updateN k o).top_rect.w = o.top_rect.w := by
  induction k with
  | zero => rfl
  | succ n ih => simp only [Obstacle.updateN, Obstacle.update, ih]

lemma Obstacle.updateN_bottom_w (o : Obstacle) (k : ℕ) :
    (Obstacle.updateN k o).bottom_rect.w = o.bottom_rect.w := by
  induction k with
  | zero => rfl
  | succ n ih => simp only [Obstacle.updateN, Obstacle.update, ih]

lemma Obstacle.updateN_top_height (o : Obstacle) (k : ℕ) :
    (Obstacle.updateN k o).top_height = o.top_height := by
  induction k with
  | zero => rfl
  | succ n ih => simp only [Obstacle.updateN, Obstacle.update, ih]

lemma Obstacle.updateN_bottom_height (o : Obstacle) (k : ℕ) :
    (Obstacle.updateN k o).bottom_height = o.bottom_height := by
  induction k with
  | zero => rfl
  | succ n ih => simp only [Obstacle.updateN, Obstacle.update, ih]

lemma Obstacle.updateN_gap_sz (o : Obstacle) (k : ℕ) :
    (Obstacle.updateN k o).gap_sz = o.gap_sz := by
  induction k with
  | zero => rfl
  | succ n ih => simp only [Obstacle.updateN, Obstacle.update, ih]

lemma Obstacle.updateN_scored (o : Obstacle) (k : ℕ) :
    (Obstacle.updateN k o).scored = o.scored := by
  induction k with
  | zero => rfl
  | succ n ih => simp only [Obstacle.updateN, Obstacle.update, ih]

lemma bird_update_bounds (b : Bird) :
    -100 ≤ (Bird.update b).y ∧ (Bird.update b).y + 100 ≤ screen_height := by
  simp only [Bird.update]
  split_ifs with h1 h2 <;> simp_all [screen_height, screen_width] <;> omega

lemma vq_succ (k : ℕ) : vq (k + 1) = vq k + 1/5 := by
  unfold vq; push_cast; ring

lemma dlt_le_zero : ∀ k, k ≤ 53 → -70 ≤ dlt k ∧ dlt k ≤ 0 := by decide

lemma dlt_neg : ∀ k, k < 53 → 0 < k → dlt k < 0 := by decide

lemma dlt_num_nonneg : ∀ k, k < 53 → 0 ≤ 5 * (71 + dlt k) + ((k : ℤ) - 24) := by
  decide

/-- In unobstructed flight from height `y0 ∈ [71, 899]` with impulse
velocity -5, the bird after `k ≤ 53` updates sits at `y0 + dlt k` with
velocity `vq k`. -/
lemma bird_free_flight (y0 : ℤ) (h1 : 71 ≤ y0) (h2 : y0 ≤ 899) :
    ∀ k, k ≤ 53 → Bird.updateN k ⟨450, y0, -5⟩ = ⟨450, y0 + dlt k, vq k⟩ := by
  intro k
  induction k with
  | zero =>
    intro _
    have hv : vq 0 = -5 := by unfold vq; norm_num
    simp [Bird.updateN, dlt, hv]
  | succ n ih =>
    intro hn
    have hnn : n < 53 := by omega
    rw [Bird.updateN, ih (by omega)]
    have heq : ((y0 + dlt n : ℤ) : ℚ) + (vq n + 1/5)
        = ((5 * (y0 + dlt n) + ((n : ℤ) - 24) : ℤ) : ℚ) / ((5 : ℕ) : ℚ) := by
      unfold vq; push_cast; ring
    have hpos : (0 : ℚ) ≤ ((y0 + dlt n : ℤ) : ℚ) + (vq n + 1/5) := by
      rw [heq]
      apply div_nonneg
      · have h := dlt_num_nonneg n hnn
        have h2 : (0:ℤ) ≤ 5 * (y0 + dlt n) + ((n : ℤ) - 24) := by omega
        exact_mod_cast h2
      · norm_num
    have hfloor : ratTrunc (((y0 + dlt n : ℤ) : ℚ) + (vq n + 1/5))
        = y0 + dlt n + dstep n := by
      rw [ratTrunc_nonneg_eq_floor _ hpos, heq, Rat.floor_intCast_div_natCast]
      unfold dstep
      push_cast
      omega
    have hd1 : dlt (n + 1) = dlt n + dstep n := rfl
    have hbnd := dlt_le_zero (n + 1) (by omega)
    have hscreen : screen_height = 1000 := by decide
    simp only [Bird.update, hfloor]
    rw [if_neg (by omega), if_neg (by omega)]
    rw [vq_succ]
    simp only [hd1]
    rw [Int.add_assoc]

/-- C4 counterexample: from height 450 with impulse velocity -5 and no
boundary contact, after exactly 50 ticks the bird sits at 435, not back at
its initial height. -/
theorem free_flight_not_back_after_50 :
    (Bird.updateN 50 (Bird.make 500 500)).y ≠ (Bird.make 500 500).y
    ∧ (Bird.updateN 50 (Bird.make 500 500)).y = 435 := by
  have hb : Bird.make 500 500 = ⟨450, 450, -5⟩ := by
    simp [Bird.make, screen_width, screen_height]
  rw [hb, bird_free_flight 450 (by norm_num) (by norm_num) 50 (by norm_num)]
  have hd : dlt 50 = -15 := by decide
  simp [hd]

/-- C4 amended: starting from any height in `[71, 899]` (so the flight
stays clear of the clamps and of nonpositive coordinates) with impulse
velocity -5, the bird returns to exactly its initial height after exactly
53 ticks, staying strictly below it on every tick in between. -/
theorem free_flight_returns_after_53 (y0 : ℤ) (h1 : 71 ≤ y0) (h2 : y0 ≤ 899) :
    (Bird.updateN 53 (⟨450, y0, -5⟩ : Bird)).y = y0
    ∧ ∀ k, 0 < k → k < 53 → (Bird.updateN k (⟨450, y0, -5⟩ : Bird)).y < y0 := by
  constructor
  · rw [bird_free_flight y0 h1 h2 53 le_rfl]
    have hd : dlt 53 = 0 := by decide
    simp [hd]
  · intro k hk1 hk2
    rw [bird_free_flight y0 h1 h2 k (by omega)]
    have hd := dlt_neg k hk2 hk1
    simp only []
    omega

/-- Witness for the amended C4 at the concrete start height 450. -/
theorem free_flight_returns_after_53_witness :
    (Bird.updateN 53 (⟨450, 450, -5⟩ : Bird)).y = 450
    ∧ (Bird.updateN 20 (⟨450, 450, -5⟩ : Bird)).y < 450 :=
  ⟨(free_flight_returns_after_53 450 (by norm_num) (by norm_num)).1,
   (free_flight_returns_after_53 450 (by norm_num) (by norm_num)).2 20
     (by norm_num) (by norm_num)⟩

/-! ## The claims -/

lemma scoreStep_fst_top_rect (R : Rect) (o : Obstacle) (sc : ℕ) :
    (scoreStep R o sc).1.top_rect = (Obstacle.update o).top_rect := by
  simp only [scoreStep]; split_ifs <;> rfl

lemma scoreStep_fst_bottom_rect (R : Rect) (o : Obstacle) (sc : ℕ) :
    (scoreStep R o sc).1.bottom_rect = (Obstacle.update o).bottom_rect := by
  simp only [scoreStep]; split_ifs <;> rfl

/-- The per-obstacle phase reports a collision exactly when some obstacle
of the incoming list, after its move, overlaps the bird rectangle. -/
lemma obstaclePass_collision_iff (R : Rect) :
    ∀ (l : List Obstacle) (sc : ℕ),
      (obstaclePass R l sc).collision = true
        ↔ ∃ o ∈ l, (R.colliderect (Obstacle.update o).top_rect
            || R.colliderect (Obstacle.update o).bottom_rect) = true := by
  intro l
  induction l with
  | nil => intro sc; simp [obstaclePass]
  | cons o rest ih =>
    intro sc
    simp only [obstaclePass, scoreStep_fst_top_rect, scoreStep_fst_bottom_rect]
    by_cases hc : (R.colliderect (Obstacle.update o).top_rect
        || R.colliderect (Obstacle.update o).bottom_rect) = true
    · rw [if_pos hc]
      exact ⟨fun _ => ⟨o, List.mem_cons_self _ _, hc⟩, fun _ => rfl⟩
    · rw [if_neg hc]
      rw [show ({ obstaclePass R rest (scoreStep R o sc).2 with obstacles :=
            if (scoreStep R o sc).1.top_rect.right < 0
               || (scoreStep R o sc).1.bottom_rect.right < 0 then
              (obstaclePass R rest (scoreStep R o sc).2).obstacles
            else (scoreStep R o sc).1 :: (obstaclePass R rest (scoreStep R o sc).2).obstacles } :
          PassResult).collision
          = (obstaclePass R rest (scoreStep R o sc).2).collision from rfl]
      rw [ih]
      constructor
      · rintro ⟨o2, hmem, hcol⟩
        exact ⟨o2, List.mem_cons_of_mem _ hmem, hcol⟩
      · rintro ⟨o2, hmem, hcol⟩
        rcases List.mem_cons.mp hmem with heq | hmem2
        · exact absurd (heq ▸ hcol) hc
        · exact ⟨o2, hmem2, hcol⟩

lemma processEvents_running (evs : List Event) :
    ∀ s : GameState, Event.quit ∉ evs → (processEvents s evs).running = s.running := by
  induction evs with
  | nil => intro s _; rfl
  | cons e rest ih =>
    intro s hne
    have hne1 : e ≠ Event.quit := by
      intro h
      exact hne (by rw [h]; exact List.mem_cons_self _ _)
    have hne2 : Event.quit ∉ rest := fun hm => hne (List.mem_cons_of_mem _ hm)
    show (processEvents (handleEvent s e) rest).running = s.running
    rw [ih (handleEvent s e) hne2]
    cases e with
    | quit => exact absurd rfl hne1
    | keySpace => rfl
    | timerFire h => rfl

/-- Evaluation of one bird update in the C3 counterexample state. -/
lemma cex_bird_update : Bird.update (⟨450, 300, -5⟩ : Bird) = ⟨450, 295, -24/5⟩ := by
  simp only [Bird.update]
  rw [show ((300:ℤ):ℚ) + ((-5 : ℚ) + 1/5) = ((1476:ℤ):ℚ) / ((5:ℕ):ℚ) by
    push_cast; norm_num]
  rw [ratTrunc_nonneg_eq_floor _ (by positivity), Rat.floor_intCast_div_natCast]
  norm_num [screen_height, screen_width]

/-- A state in which the bird overlaps an obstacle only after its physics
update: the collision test of the same tick does not fire in the source
order, but does in the order the claim describes. -/
def orderCexState : GameState :=
  { running := true, bird := ⟨450, 300, -5⟩,
    obstacles := [Obstacle.make 503 400 300 100], score := 0,
    spawn_timer := 1800 }

/-- C3 counterexample: the source's tick does not advance the bird's
physics before the collision test. In `orderCexState` the tick keeps the
obstacle (no collision seen), while a tick that advances the bird first
(as the claim states) collides and clears the obstacle set — even though
the post-update bird does overlap the moved obstacle. -/
theorem tick_order_counterexample :
    (tick orderCexState []).obstacles
        = [Obstacle.update (Obstacle.make 503 400 300 100)]
    ∧ (tickSpecOrdered orderCexState []).obstacles = []
    ∧ tickCollides orderCexState [] = false
    ∧ (Bird.update (⟨450, 300, -5⟩ : Bird)).rect.colliderect
        (Obstacle.update (Obstacle.make 503 400 300 100)).top_rect = true := by
  refine ⟨by decide, ?_, by decide, ?_⟩
  · simp only [tickSpecOrdered, processEvents, List.foldl, orderCexState]
    rw [cex_bird_update]
    decide
  · rw [cex_bird_update]
    decide

/-- C3 amended: in each tick the obstacles are advanced and then tested for
collision and scoring against the bird's pre-tick position; the bird's own
physics update happens afterwards, in the render phase, after any reset. -/
theorem tick_bird_advanced_after_collision_test (s : GameState) (evs : List Event) :
    (tick s evs).bird
      = Bird.update (if tickCollides s evs
          then Bird.make (screen_width / 2) (screen_height / 2)
          else (processEvents s evs).bird)
    ∧ (tickCollides s evs = true ↔ ∃ o ∈ (processEvents s evs).obstacles,
        ((processEvents s evs).bird.rect.colliderect (Obstacle.update o).top_rect
          || (processEvents s evs).bird.rect.colliderect
              (Obstacle.update o).bottom_rect) = true) := by
  constructor
  · simp only [tick, tickCollides]
    by_cases hE : (obstaclePass (processEvents s evs).bird.rect
        (processEvents s evs).obstacles (processEvents s evs).score).collision = true
    · rw [if_pos hE, if_pos hE]
    · rw [if_neg hE, if_neg hE]
  · exact obstaclePass_collision_iff _ _ _

/-- C6: whenever the collision test fires in a tick (and no quit event
arrived), the tick empties the obstacle set, zeroes the score, restarts the
spawn timer at its original interval, keeps the loop running, and re-creates
the player at its initial position and velocity (the fresh bird then gets
the render-phase physics update of the same tick). -/
theorem collision_resets_state (s : GameState) (evs : List Event)
    (hcol : tickCollides s evs = true) (hrun : s.running = true)
    (hq : Event.quit ∉ evs) :
    (tick s evs).obstacles = []
    ∧ (tick s evs).score = 0
    ∧ (tick s evs).spawn_timer = obstacle_interval
    ∧ (tick s evs).running = true
    ∧ (tick s evs).bird
        = Bird.update (Bird.make (screen_width / 2) (screen_height / 2))
    ∧ Bird.make (screen_width / 2) (screen_height / 2) = ⟨450, 450, -5⟩ := by
  have hmk : Bird.make (screen_width / 2) (screen_height / 2) = ⟨450, 450, -5⟩ := by
    simp [Bird.make, screen_width, screen_height]
  simp only [tickCollides] at hcol
  have htick : tick s evs =
      { running := (processEvents s evs).running,
        bird := Bird.update (Bird.make (screen_width / 2) (screen_height / 2)),
        obstacles := [], score := 0, spawn_timer := obstacle_interval } := by
    simp only [tick, hcol, if_true]
  rw [htick]
  exact ⟨rfl, rfl, rfl, by rw [processEvents_running evs s hq, hrun], rfl, hmk⟩

/-- A state whose single obstacle overlaps the bird as soon as it moves. -/
def collisionState : GameState :=
  { running := true, bird := ⟨450, 450, -5⟩,
    obstacles := [Obstacle.make 453 400 500 100], score := 3,
    spawn_timer := 1800 }

/-- Witness for C6 at a concrete colliding state. -/
theorem collision_resets_state_witness :
    (tick collisionState []).obstacles = []
    ∧ (tick collisionState []).score = 0
    ∧ (tick collisionState []).spawn_timer = obstacle_interval
    ∧ (tick collisionState []).running = true
    ∧ (tick collisionState []).bird
        = Bird.update (Bird.make (screen_width / 2) (screen_height / 2))
    ∧ Bird.make (screen_width / 2) (screen_height / 2) = ⟨450, 450, -5⟩ :=
  collision_resets_state collisionState [] (by decide) rfl (by simp)

/-- C5: For every obstacle constructed with any top height,
`top_height + gap_size + bottom_height = screen_height` at construction,
and the equation is preserved by every subsequent `update`. -/
theorem obstacle_heights_sum_invariant (x g h w : ℤ) (n : ℕ) :
    (Obstacle.updateN n (Obstacle.make x g h w)).top_height
      + (Obstacle.updateN n (Obstacle.make x g h w)).gap_sz
      + (Obstacle.updateN n (Obstacle.make x g h w)).bottom_height
      = screen_height := by
  rw [Obstacle.updateN_top_height, Obstacle.updateN_gap_sz,
    Obstacle.updateN_bottom_height]
  simp only [Obstacle.make]
  ring

/-- C8: Each obstacle `update` subtracts the horizontal speed 3 from both
rectangles' `x`, and an obstacle of width 100 spawned at `x = 1000` is
off-screen (the removal condition, top-rect right edge `< 0`) exactly from
tick 367 on. -/
theorem obstacle_scroll_and_removal :
    (∀ o : Obstacle, (Obstacle.update o).top_rect.x = o.top_rect.x - 3
      ∧ (Obstacle.update o).bottom_rect.x = o.bottom_rect.x - 3)
    ∧ ∀ (h : ℤ) (k : ℕ),
      Obstacle.offscreen (Obstacle.updateN k (Obstacle.make 1000 400 h 100))
        = decide (367 ≤ k) := by
  constructor
  · intro o
    exact ⟨rfl, rfl⟩
  · intro h k
    simp only [Obstacle.offscreen, Rect.right, Obstacle.updateN_top_x,
      Obstacle.updateN_top_w, Obstacle.make]
    rw [decide_eq_decide]
    omega

/-- C9: an obstacle's two rectangles share the same `x` (and width) at
construction and after every `update`, so a right-edge comparison against
the top rectangle is equivalent to one against the bottom rectangle. -/
theorem obstacle_rects_share_x (x g h w : ℤ) (n : ℕ) :
    (Obstacle.updateN n (Obstacle.make x g h w)).top_rect.x
      = (Obstacle.updateN n (Obstacle.make x g h w)).bottom_rect.x
    ∧ (Obstacle.updateN n (Obstacle.make x g h w)).top_rect.w
      = (Obstacle.updateN n (Obstacle.make x g h w)).bottom_rect.w
    ∧ ∀ c : ℤ,
      ((Obstacle.updateN n (Obstacle.make x g h w)).top_rect.right < c
        ↔ (Obstacle.updateN n (Obstacle.make x g h w)).bottom_rect.right < c) := by
  refine ⟨?_, ?_, ?_⟩ <;>
    simp [Rect.right, Obstacle.updateN_top_x, Obstacle.updateN_bottom_x,
      Obstacle.updateN_top_w, Obstacle.updateN_bottom_w, Obstacle.make]

/-- C10: the `Bird` constructor ignores its `x` and `y` arguments: every
constructed bird is the same, centered at
`(screen_width // 2, screen_height // 2)` with initial velocity -5. -/
theorem bird_ctor_ignores_args (a b a2 b2 : ℤ) :
    Bird.make a b = Bird.make a2 b2
    ∧ (Bird.make a b).x + 50 = screen_width / 2
    ∧ (Bird.make a b).y + 50 = screen_height / 2
    ∧ (Bird.make a b).velocity = -5 :=
  ⟨rfl, by norm_num [Bird.make, screen_width, screen_height],
    by norm_num [Bird.make, screen_width, screen_height], rfl⟩

/-- C2: after every `update` call, in any sequence of updates and flap
inputs starting from a fresh bird, the bird's top edge is at or below -100
and its bottom edge at or above `screen_height` never: the vertical
position stays within `[-100, screen_height]`. -/
theorem bird_position_in_bounds (ops : List BirdOp) :
    -100 ≤ (birdRun (ops ++ [BirdOp.advance]) (Bird.make 500 500)).rect.top
    ∧ (birdRun (ops ++ [BirdOp.advance]) (Bird.make 500 500)).rect.bottom
        ≤ screen_height := by
  have h : birdRun (ops ++ [BirdOp.advance]) (Bird.make 500 500)
      = Bird.update (birdRun ops (Bird.make 500 500)) := by
    simp [birdRun, List.foldl_append, applyOp]
  rw [h]
  simpa [Bird.rect, Rect.top, Rect.bottom] using
    bird_update_bounds (birdRun ops (Bird.make 500 500))

/-- C7: `Bird.update` first adds the gravity increment 0.2 to the velocity
and then adds the velocity to the vertical position (truncating to the
integer rect coordinate); when the resulting bottom edge is at or below
`screen_height`, it sets the bottom edge to exactly `screen_height` and the
velocity to `-velocity * 0.75`. -/
theorem bird_update_gravity_then_move_and_bounce (b : Bird) :
    (screen_height ≤ ratTrunc ((b.y : ℚ) + (b.velocity + 1/5)) + 100 →
      Bird.update b = { b with y := screen_height - 100,
                               velocity := -(b.velocity + 1/5) * (3/4) })
    ∧ (-100 < ratTrunc ((b.y : ℚ) + (b.velocity + 1/5)) →
       ratTrunc ((b.y : ℚ) + (b.velocity + 1/5)) + 100 < screen_height →
      Bird.update b = { b with y := ratTrunc ((b.y : ℚ) + (b.velocity + 1/5)),
                               velocity := b.velocity + 1/5 }) := by
  have hval : screen_height = 1000 := by decide
  constructor
  · intro hbot
    simp only [Bird.update]
    split_ifs
    all_goals first
      | rfl
      | (exfalso; omega)
  · intro htop hbot
    simp only [Bird.update]
    split_ifs
    all_goals first
      | rfl
      | (exfalso; omega)

lemma scoreStepN_add (R : Rect) (a : ℕ) (p : Obstacle × ℕ) :
    ∀ b, scoreStepN R (a + b) p = scoreStepN R b (scoreStepN R a p) := by
  intro b
  induction b with
  | zero => rfl
  | succ m ih => simp only [Nat.add_succ, scoreStepN, Nat.add_eq, ih]

/-- As long as the obstacle has not passed the bird, the ticks only move it
and the score is untouched. -/
lemma scoreStepN_no_pass (R : Rect) (o : Obstacle) (sc : ℕ)
    (hsc : o.scored = false) :
    ∀ n, (∀ j, 0 < j → j ≤ n → ¬ passedAt R o j) →
      scoreStepN R n (o, sc) = (Obstacle.updateN n o, sc) := by
  intro n
  induction n with
  | zero => intro _; rfl
  | succ m ih =>
    intro hno
    have hm := ih (fun j hj1 hj2 => hno j hj1 (by omega))
    simp only [scoreStepN, hm]
    unfold scoreStep
    rw [if_neg]
    · rfl
    · intro hcond
      exact hno (m + 1) (Nat.succ_pos m) le_rfl hcond.1

/-- Once the `scored` flag is set, further ticks never touch the score and
keep the flag set. -/
lemma scoreStepN_scored (R : Rect) :
    ∀ n (o : Obstacle) (sc : ℕ), o.scored = true →
      (scoreStepN R n (o, sc)).2 = sc
      ∧ (scoreStepN R n (o, sc)).1.scored = true := by
  intro n
  induction n with
  | zero => intro o sc h; exact ⟨rfl, h⟩
  | succ m ih =>
    intro o sc h
    obtain ⟨ih2, ih1⟩ := ih o sc h
    simp only [scoreStepN]
    unfold scoreStep
    rw [if_neg]
    · exact ⟨ih2, ih1⟩
    · intro hcond
      have h2 := hcond.2
      rw [show (Obstacle.update (scoreStepN R m (o, sc)).1).scored
            = (scoreStepN R m (o, sc)).1.scored from rfl, ih1] at h2
      exact Bool.noConfusion h2

/-- C1: with the bird's rectangle fixed, if tick `k` is the first tick at
which the obstacle's top-rect right edge is strictly left of the bird's
left edge, then the score is still its initial value on every earlier tick
and exactly one larger on tick `k` and every later tick. -/
theorem scoring_once_at_first_pass (R : Rect) (o : Obstacle) (sc : ℕ) (k : ℕ)
    (hsc : o.scored = false) (hk : 0 < k)
    (hfirst : ∀ j, j < k → ¬ passedAt R o j)
    (hpass : passedAt R o k) :
    (∀ j, j < k → (scoreStepN R j (o, sc)).2 = sc)
    ∧ ∀ m, k ≤ m → (scoreStepN R m (o, sc)).2 = sc + 1 := by
  obtain ⟨i, rfl⟩ : ∃ i, k = i + 1 := ⟨k - 1, by omega⟩
  have hstepk : scoreStepN R (i + 1) (o, sc)
      = ({ Obstacle.updateN (i + 1) o with scored := true }, sc + 1) := by
    have hA := scoreStepN_no_pass R o sc hsc i
      (fun j hj1 hj2 => hfirst j (by omega))
    simp only [scoreStepN, hA]
    unfold scoreStep
    rw [if_pos]
    · rfl
    · refine ⟨hpass, ?_⟩
      show (Obstacle.updateN (i + 1) o).scored = false
      rw [Obstacle.updateN_scored]
      exact hsc
  constructor
  · intro j hj
    rw [scoreStepN_no_pass R o sc hsc j (fun t ht1 ht2 => hfirst t (by omega))]
  · intro m hm
    obtain ⟨d, rfl⟩ : ∃ d, m = (i + 1) + d := ⟨m - (i + 1), by omega⟩
    rw [scoreStepN_add, hstepk]
    exact (scoreStepN_scored R d _ _ rfl).1

/-- Witness for C1: an obstacle spawned at `x = 451` first passes the
bird's left edge (450) on tick 34; the score rises from 0 to 1 there and
stays 1. -/
theorem scoring_once_at_first_pass_witness :
    (scoreStepN (Bird.make 500 500).rect 33 (Obstacle.make 451 400 300 100, 0)).2 = 0
    ∧ (scoreStepN (Bird.make 500 500).rect 34 (Obstacle.make 451 400 300 100, 0)).2 = 1
    ∧ (scoreStepN (Bird.make 500 500).rect 60 (Obstacle.make 451 400 300 100, 0)).2 = 1 := by
  have h := scoring_once_at_first_pass (Bird.make 500 500).rect
    (Obstacle.make 451 400 300 100) 0 34 rfl (by norm_num)
    (by decide) (by decide)
  exact ⟨h.1 33 (by norm_num), h.2 34 le_rfl, h.2 60 (by norm_num)⟩

/-- Witness for C7: a bird at `y = 895` falling at velocity 9.8 strikes the
floor and bounces. -/
theorem bird_update_gravity_then_move_and_bounce_witness :
    Bird.update ⟨450, 895, 49/5⟩ =
      ⟨450, screen_height - 100, -(49/5 + 1/5) * (3/4)⟩ :=
  (bird_update_gravity_then_move_and_bounce ⟨450, 895, 49/5⟩).1 (by
    rw [show (((895:ℤ)):ℚ) + (49/5 + 1/5) = ((905:ℤ):ℚ) by push_cast; norm_num,
      ratTrunc_intCast]
    decide)

end FlappyMax
